import Mathlib

/-!
A formal model of the blog application in src/main.py: the relational data
model (User, BlogPost, Comment), the flask-login session identity, the
admin_only authorization wrapper, and the request handlers, embedded as
pure state-passing functions.  Uncaught Python exceptions are modelled by
an explicit error case carrying the (uncommitted, hence unchanged) store
state.
-/

namespace Blog

/-- A stored password hash as a structured value: the method tag, the
random salt, and the derived key. -/
structure PasswordHash where
  method : String
  salt : Nat
  key : String
deriving Repr, DecidableEq

/-- Modelled from the spec: the key derivation inside the password hasher
is werkzeug library code, outside this repository.  Per the contract in
the spec, the derivation is recomputable from the embedded salt and
separates distinct plaintexts; it is modelled as an injective salted
encoding of the plaintext. -/
def derive_key (salt : Nat) (plaintext : String) : String :=
  toString salt ++ "/" ++ plaintext

/-- Modelled from the spec: generate_password_hash produces a salted
PBKDF2-SHA256 hash (src/main.py line 112 requests method pbkdf2:sha256
with an 8-character random salt); the random salt is made an explicit
argument. -/
def generate_password_hash (salt : Nat) (plaintext : String) : PasswordHash :=
  { method := "pbkdf2:sha256", salt := salt, key := derive_key salt plaintext }

/-- Modelled from the spec: check_password_hash recomputes the derivation
with the salt embedded in the stored hash and compares. -/
def check_password_hash (h : PasswordHash) (plaintext : String) : Bool :=
  h.key == derive_key h.salt plaintext

/-- A row of the users table (src/main.py lines 52-59). -/
structure User where
  id : Nat
  name : String
  email : String
  password : PasswordHash
deriving Repr, DecidableEq

/-- A row of the blog_posts table (src/main.py lines 39-49). -/
structure BlogPost where
  id : Nat
  title : String
  subtitle : String
  date : String
  body : String
  img_url : String
  author_id : Nat
deriving Repr, DecidableEq

/-- A row of the comments table (src/main.py lines 62-69). -/
structure Comment where
  id : Nat
  text : String
  commenter_id : Nat
  blog_id : Nat
deriving Repr, DecidableEq

/-- The relational store: the three tables plus the autoincrement
primary-key counters. -/
structure DB where
  users : List User
  posts : List BlogPost
  comments : List Comment
  nextUserId : Nat
  nextPostId : Nat
  nextCommentId : Nat
deriving Repr, DecidableEq

/-- Application state: the store plus the flask-login session, holding the
stored user id or none when logged out. -/
structure AppState where
  db : DB
  sessionUserId : Option Nat
deriving Repr, DecidableEq

/-- load_user (src/main.py line 77): resolve a stored session id to a
users row. -/
def load_user (db : DB) (user_id : Nat) : Option User :=
  db.users.find? (fun u => u.id == user_id)

/-- flask-login current_user: some user when the stored session id
resolves through load_user, none (the anonymous user) otherwise. -/
def currentUser (st : AppState) : Option User :=
  match st.sessionUserId with
  | none => none
  | some i => load_user st.db i

/-- First users row with the given email (User.query.filter_by(email).first()). -/
def findUserByEmail (db : DB) (email : String) : Option User :=
  db.users.find? (fun u => u.email == email)

/-- BlogPost.query.get, lookup by primary key. -/
def getPost (db : DB) (post_id : Nat) : Option BlogPost :=
  db.posts.find? (fun p => p.id == post_id)

/-- The post listing used by the homepage (BlogPost.query.all()). -/
def listPosts (db : DB) : List BlogPost :=
  db.posts

/-- RegisterForm fields (src/forms.py lines 19-23). -/
structure RegisterData where
  name : String
  email : String
  password : String
deriving Repr, DecidableEq

/-- DataRequired on every field of RegisterForm. -/
def RegisterData.valid (d : RegisterData) : Bool :=
  !(d.name == "") && !(d.email == "") && !(d.password == "")

/-- LoginForm fields (src/forms.py lines 27-30). -/
structure LoginData where
  email : String
  password : String
deriving Repr, DecidableEq

/-- DataRequired on every field of LoginForm. -/
def LoginData.valid (d : LoginData) : Bool :=
  !(d.email == "") && !(d.password == "")

/-- CreatePostForm fields (src/forms.py lines 10-15). -/
structure PostData where
  title : String
  subtitle : String
  img_url : String
  body : String
deriving Repr, DecidableEq

/-- DataRequired on every field of CreatePostForm (the URL-shape validator
is an external collaborator per the spec and is not modelled). -/
def PostData.valid (d : PostData) : Bool :=
  !(d.title == "") && !(d.subtitle == "") && !(d.img_url == "") && !(d.body == "")

/-- CommentForm field (src/forms.py lines 34-36). -/
structure CommentData where
  comment : String
deriving Repr, DecidableEq

/-- DataRequired on the comment field. -/
def CommentData.valid (d : CommentData) : Bool :=
  !(d.comment == "")

/-- A handler response: a redirect to an endpoint, a template render, an
HTTP abort, or a plain HTML string returned directly. -/
inductive Response where
  | redirect (target : String)
  | render (template : String)
  | abort (code : Nat)
  | html (body : String)
deriving Repr, DecidableEq

/-- The outcome of a handler that returned normally: the response, the
messages flashed during the request, and the resulting application
state. -/
structure HandlerResult where
  response : Response
  flashes : List String
  state : AppState
deriving Repr, DecidableEq

/-- The Python exceptions relevant to these handlers: AttributeError
(attribute access on None or on the anonymous user), IntegrityError
(a violated unique constraint at commit), and the sqlalchemy error raised
by db.session.delete(None). -/
inductive PyErr where
  | attributeError
  | integrityError
  | unmappedInstanceError
deriving Repr, DecidableEq

/-- Result of a routed request: a normal response, or an uncaught Python
exception, which Flask renders as a 500 error; the carried state is the
store state, unchanged since nothing was committed. -/
inductive RouteResult where
  | ok (r : HandlerResult)
  | err (e : PyErr) (st : AppState)
deriving Repr, DecidableEq

/-- The application state after a routed request, whether or not it
raised. -/
def RouteResult.resState : RouteResult → AppState
  | .ok r => r.state
  | .err _ st => st

/-- The literal body returned by admin_only for an unauthenticated
request. -/
def needLoginHtml : String :=
  "<h1> need to log in first </h1>"

/-- admin_only decorator (src/main.py lines 82-92).  Reading
current_user.id raises AttributeError for the anonymous user, which the
except clause turns into the plain need-to-log-in page; the same clause
also catches an AttributeError raised inside the wrapped handler, since
the try block encloses the call.  abort(403) and all other exceptions are
not caught. -/
def admin_only (handler : AppState → RouteResult) (st : AppState) : RouteResult :=
  match currentUser st with
  | none => .ok { response := .html needLoginHtml, flashes := [], state := st }
  | some u =>
    if u.id = 1 then
      match handler st with
      | .err .attributeError st2 =>
        .ok { response := .html needLoginHtml, flashes := [], state := st2 }
      | r => r
    else .ok { response := .abort 403, flashes := [], state := st }

/-- register handler (src/main.py lines 104-118).  The random salt drawn
by the hasher is an explicit argument; the form input is none for a GET
or an unsubmitted form. -/
def register (salt : Nat) (input : Option RegisterData) (st : AppState) : HandlerResult :=
  match input with
  | some d =>
    if d.valid then
      match findUserByEmail st.db d.email with
      | some _ =>
        { response := .redirect "login",
          flashes := ["That email already exist in db!"], state := st }
      | none =>
        let hashed := generate_password_hash salt d.password
        let newUser : User :=
          { id := st.db.nextUserId, name := d.name, email := d.email, password := hashed }
        { response := .redirect "get_all_posts", flashes := [],
          state :=
            { db :=
                { st.db with
                  users := st.db.users ++ [newUser]
                  nextUserId := st.db.nextUserId + 1 },
              sessionUserId := some newUser.id } }
    else { response := .render "register.html", flashes := [], state := st }
  | none => { response := .render "register.html", flashes := [], state := st }

/-- login handler (src/main.py lines 122-138). -/
def login (input : Option LoginData) (st : AppState) : HandlerResult :=
  match input with
  | some d =>
    if d.valid then
      match findUserByEmail st.db d.email with
      | some user =>
        if check_password_hash user.password d.password then
          { response := .redirect "get_all_posts", flashes := [],
            state := { st with sessionUserId := some user.id } }
        else
          { response := .redirect "login", flashes := ["Wrong Password!"], state := st }
      | none =>
        { response := .redirect "login", flashes := ["Wrong Entry!"], state := st }
    else { response := .render "login.html", flashes := [], state := st }
  | none => { response := .render "login.html", flashes := [], state := st }

/-- show_post handler (src/main.py lines 149-167).  The comment insert
uses the requested post id directly and does not check that the post
exists; SQLite does not enforce the foreign key, so the insert commits
either way. -/
def show_post (post_id : Nat) (input : Option CommentData) (st : AppState) : HandlerResult :=
  match input with
  | some d =>
    if d.valid then
      match currentUser st with
      | some u =>
        let newComment : Comment :=
          { id := st.db.nextCommentId, text := d.comment,
            commenter_id := u.id, blog_id := post_id }
        { response := .redirect ("post/" ++ toString post_id), flashes := [],
          state :=
            { st with db :=
                { st.db with
                  comments := st.db.comments ++ [newComment]
                  nextCommentId := st.db.nextCommentId + 1 } } }
      | none =>
        { response := .redirect "login", flashes := ["Need to log in to comment!"],
          state := st }
    else { response := .render "post.html", flashes := [], state := st }
  | none => { response := .render "post.html", flashes := [], state := st }

/-- add_new_post handler body (src/main.py lines 185-199).  There is no
duplicate-title check: committing a post whose title collides with an
existing row violates the unique constraint on blog_posts.title and
raises an uncaught IntegrityError.  The date stamp is an explicit
argument.  The anonymous branch is unreachable through the admin_only
wrapper. -/
def add_new_post (today : String) (input : Option PostData) (st : AppState) : RouteResult :=
  match input with
  | some d =>
    if d.valid then
      match currentUser st with
      | some u =>
        if st.db.posts.any (fun p => p.title == d.title) then
          .err .integrityError st
        else
          .ok { response := .redirect "get_all_posts", flashes := [],
                state :=
                  { st with db :=
                    { st.db with
                      posts := st.db.posts ++
                        [{ id := st.db.nextPostId, title := d.title,
                           subtitle := d.subtitle, date := today, body := d.body,
                           img_url := d.img_url, author_id := u.id }],
                      nextPostId := st.db.nextPostId + 1 } } }
      | none => .err .attributeError st
    else .ok { response := .render "make-post.html", flashes := [], state := st }
  | none => .ok { response := .render "make-post.html", flashes := [], state := st }

/-- edit_post handler body (src/main.py lines 205-222).  When the post id
does not resolve, building the prefilled form reads post.title on None
and raises AttributeError before anything else runs.  Retitling a post to
another existing row title violates the unique constraint at commit.
The update is keyed on the primary key, which is unique in the store. -/
def edit_post (post_id : Nat) (input : Option PostData) (st : AppState) : RouteResult :=
  match getPost st.db post_id with
  | none => .err .attributeError st
  | some post =>
    match input with
    | some d =>
      if d.valid then
        if st.db.posts.any (fun p => !(p.id == post.id) && p.title == d.title) then
          .err .integrityError st
        else
          .ok { response := .redirect ("post/" ++ toString post.id), flashes := [],
                state :=
                  { st with db :=
                    { st.db with posts := st.db.posts.map (fun p =>
                        if p.id = post.id then
                          { p with
                            title := d.title
                            subtitle := d.subtitle
                            img_url := d.img_url
                            body := d.body }
                        else p) } } }
      else .ok { response := .render "make-post.html", flashes := [], state := st }
    | none => .ok { response := .render "make-post.html", flashes := [], state := st }

/-- delete_post handler body (src/main.py lines 228-232).
db.session.delete(None) raises when the id does not resolve; otherwise
the row with that primary key is removed and no comment cleanup is
performed. -/
def delete_post (post_id : Nat) (st : AppState) : RouteResult :=
  match getPost st.db post_id with
  | none => .err .unmappedInstanceError st
  | some post =>
    .ok { response := .redirect "get_all_posts", flashes := [],
          state :=
            { st with db :=
              { st.db with posts := st.db.posts.filter (fun p => !(p.id == post.id)) } } }

/-- The /new-post route: add_new_post wrapped by admin_only. -/
def new_post_route (today : String) (input : Option PostData) (st : AppState) : RouteResult :=
  admin_only (add_new_post today input) st

/-- The /edit-post route: edit_post wrapped by admin_only. -/
def edit_post_route (post_id : Nat) (input : Option PostData) (st : AppState) : RouteResult :=
  admin_only (edit_post post_id input) st

/-- The /delete route: delete_post wrapped by admin_only. -/
def delete_post_route (post_id : Nat) (st : AppState) : RouteResult :=
  admin_only (delete_post post_id) st

/-- Referential integrity of comments: every comment points at an
existing post. -/
def refIntegrityB (db : DB) : Bool :=
  db.comments.all (fun c => db.posts.any (fun p => p.id == c.blog_id))

/-- A comment present in the store whose blog_id matches no post row. -/
def danglingComment (db : DB) (c : Comment) : Prop :=
  c ∈ db.comments ∧ ∀ p ∈ db.posts, p.id ≠ c.blog_id

/-- True when the routed request returned a normal response rather than
raising. -/
def RouteResult.isOk : RouteResult → Bool
  | .ok _ => true
  | .err _ _ => false

/-- The users row created by a successful registration. -/
def registeredUser (salt : Nat) (d : RegisterData) (db : DB) : User :=
  { id := db.nextUserId, name := d.name, email := d.email,
    password := generate_password_hash salt d.password }

/-- The blog_posts row created by a successful new-post submission. -/
def createdPost (today : String) (d : PostData) (db : DB) (author : User) : BlogPost :=
  { id := db.nextPostId, title := d.title, subtitle := d.subtitle, date := today,
    body := d.body, img_url := d.img_url, author_id := author.id }

/-- A sample stored hash for concrete evaluations. -/
def hpw : PasswordHash := generate_password_hash 5 "pw"

/-- The first-registered user, id 1, hence the administrator. -/
def adminUser : User := { id := 1, name := "ali", email := "a@x", password := hpw }

/-- A second registered user, not the administrator. -/
def otherUser : User := { id := 2, name := "can", email := "b@x", password := hpw }

/-- A sample post authored by the administrator. -/
def post1 : BlogPost :=
  { id := 1, title := "T", subtitle := "s", date := "May 01, 2022", body := "b",
    img_url := "http://img", author_id := 1 }

/-- A sample comment by the second user on post 1. -/
def comment1 : Comment := { id := 1, text := "hi", commenter_id := 2, blog_id := 1 }

/-- A small populated store. -/
def sampleDB : DB :=
  { users := [adminUser, otherUser], posts := [post1], comments := [comment1],
    nextUserId := 3, nextPostId := 2, nextCommentId := 2 }

/-- The sample store with no session (anonymous requester). -/
def stAnon : AppState := { db := sampleDB, sessionUserId := none }

/-- The sample store with the non-admin user logged in. -/
def stOther : AppState := { db := sampleDB, sessionUserId := some 2 }

/-- The sample store with the administrator logged in. -/
def stAdmin : AppState := { db := sampleDB, sessionUserId := some 1 }

/- ------------------------------------------------------------------ -/
/- Helper lemmas                                                       -/
/- ------------------------------------------------------------------ -/

theorem string_append_left_cancel (a b c : String) (h : a ++ b = a ++ c) : b = c := by
  have hd := congrArg String.data h
  simp only [String.data_append] at hd
  exact String.ext (List.append_cancel_left hd)

theorem derive_key_ne_plaintext (s : Nat) (p : String) : derive_key s p ≠ p := by
  intro h
  have hl := congrArg String.length h
  simp only [derive_key, String.length_append] at hl
  have hone : ("/" : String).length = 1 := rfl
  omega

theorem find?_append_last {α} (p : α → Bool) (l : List α) (a : α)
    (hl : l.find? p = none) (ha : p a = true) :
    (l ++ [a]).find? p = some a := by
  rw [List.find?_append, hl, Option.none_or, List.find?_cons_of_pos _ ha]

theorem find?_key_of_mem_nodup {l : List User} {u : User}
    (hm : u ∈ l) (hn : (l.map User.id).Nodup) :
    l.find? (fun v => v.id == u.id) = some u := by
  induction l with
  | nil => cases hm
  | cons x xs ih =>
    simp only [List.map_cons, List.nodup_cons] at hn
    rcases List.mem_cons.mp hm with rfl | h
    · rw [List.find?_cons_of_pos]
      simp
    · rw [List.find?_cons_of_neg, ih h hn.2]
      simp only [beq_iff_eq]
      intro hEq
      exact hn.1 (hEq ▸ List.mem_map_of_mem User.id h)

/- ------------------------------------------------------------------ -/
/- Claims                                                              -/
/- ------------------------------------------------------------------ -/

/-- Claim C9: verifying a password against its own hash succeeds, verifying
a different password fails, and hashing the same password with two
different salts yields two different hashes. -/
theorem password_hash_contract (s s2 : Nat) (p p2 : String)
    (hp : p ≠ p2) (hs : s ≠ s2) :
    check_password_hash (generate_password_hash s p) p = true ∧
    check_password_hash (generate_password_hash s p2) p = false ∧
    generate_password_hash s p ≠ generate_password_hash s2 p := by
  refine ⟨by simp [check_password_hash, generate_password_hash], ?_, ?_⟩
  · simp only [check_password_hash, generate_password_hash]
    apply beq_eq_false_iff_ne.mpr
    intro h
    exact hp (string_append_left_cancel _ _ _ h).symm
  · intro h
    exact hs (congrArg PasswordHash.salt h)

/-- Concrete instance of the hasher contract. -/
theorem password_hash_contract_witness :
    check_password_hash (generate_password_hash 1 "aa") "aa" = true ∧
    check_password_hash (generate_password_hash 1 "bb") "aa" = false ∧
    generate_password_hash 1 "aa" ≠ generate_password_hash 2 "aa" :=
  password_hash_contract 1 2 "aa" "bb" (by decide) (by decide)

/-- Claim C1: on the three admin_only routes, an anonymous requester gets
the plain need-to-log-in page and the store is untouched; an authenticated
non-admin gets a 403 and the store is untouched; the administrator (id 1)
has the wrapped handler executed, its normal result passed through
unchanged. -/
theorem admin_routes_authorization (today : String) (pid : Nat)
    (pin pein : Option PostData) (st : AppState) :
    (currentUser st = none →
      new_post_route today pin st =
        .ok { response := .html needLoginHtml, flashes := [], state := st } ∧
      edit_post_route pid pein st =
        .ok { response := .html needLoginHtml, flashes := [], state := st } ∧
      delete_post_route pid st =
        .ok { response := .html needLoginHtml, flashes := [], state := st }) ∧
    (∀ u, currentUser st = some u → u.id ≠ 1 →
      new_post_route today pin st =
        .ok { response := .abort 403, flashes := [], state := st } ∧
      edit_post_route pid pein st =
        .ok { response := .abort 403, flashes := [], state := st } ∧
      delete_post_route pid st =
        .ok { response := .abort 403, flashes := [], state := st }) ∧
    (∀ u, currentUser st = some u → u.id = 1 →
      (∀ r, add_new_post today pin st = .ok r → new_post_route today pin st = .ok r) ∧
      (∀ r, edit_post pid pein st = .ok r → edit_post_route pid pein st = .ok r) ∧
      (∀ r, delete_post pid st = .ok r → delete_post_route pid st = .ok r)) := by
  refine ⟨fun h => ?_, fun u hu hne => ?_, fun u hu h1 => ?_⟩
  · refine ⟨?_, ?_, ?_⟩ <;>
      simp [new_post_route, edit_post_route, delete_post_route, admin_only, h]
  · refine ⟨?_, ?_, ?_⟩ <;>
      simp [new_post_route, edit_post_route, delete_post_route, admin_only, hu, hne]
  · refine ⟨fun r hr => ?_, fun r hr => ?_, fun r hr => ?_⟩ <;>
      simp [new_post_route, edit_post_route, delete_post_route, admin_only, hu, h1, hr]

/-- Concrete instances of the authorization gate: anonymous requester on
new-post, non-admin on new-post, administrator on delete. -/
theorem admin_routes_authorization_witness :
    new_post_route "May 02, 2022" none stAnon =
      .ok { response := .html needLoginHtml, flashes := [], state := stAnon } ∧
    new_post_route "May 02, 2022" none stOther =
      .ok { response := .abort 403, flashes := [], state := stOther } ∧
    delete_post_route 1 stAdmin =
      .ok { response := .redirect "get_all_posts", flashes := [],
            state :=
              { db :=
                  { users := [adminUser, otherUser], posts := [], comments := [comment1],
                    nextUserId := 3, nextPostId := 2, nextCommentId := 2 },
                sessionUserId := some 1 } } :=
  ⟨((admin_routes_authorization "May 02, 2022" 1 none none stAnon).1 (by decide)).1,
    ((admin_routes_authorization "May 02, 2022" 1 none none stOther).2.1 otherUser
      (by decide) (by decide)).1,
    ((admin_routes_authorization "May 02, 2022" 1 none none stAdmin).2.2 adminUser
      (by decide) (by decide)).2.2 _ (by decide)⟩

/-- Claim C2: a valid registration with a fresh email creates exactly one
new User whose stored password is the salted pbkdf2:sha256 hash of the
submitted password and not the plaintext, authenticates the session as
that user, and redirects to the post list.  The id-freshness hypothesis is
the autoincrement invariant of the store. -/
theorem register_fresh_email (salt : Nat) (d : RegisterData) (st : AppState)
    (hv : d.valid = true)
    (hfresh : findUserByEmail st.db d.email = none)
    (hids : ∀ u ∈ st.db.users, u.id < st.db.nextUserId) :
    register salt (some d) st =
      { response := .redirect "get_all_posts", flashes := [],
        state :=
          { db :=
              { st.db with
                users := st.db.users ++ [registeredUser salt d st.db]
                nextUserId := st.db.nextUserId + 1 },
            sessionUserId := some st.db.nextUserId } } ∧
    currentUser (register salt (some d) st).state = some (registeredUser salt d st.db) ∧
    (registeredUser salt d st.db).password.method = "pbkdf2:sha256" ∧
    (registeredUser salt d st.db).password.key ≠ d.password := by
  have hreg : register salt (some d) st =
      { response := .redirect "get_all_posts", flashes := [],
        state :=
          { db :=
              { st.db with
                users := st.db.users ++ [registeredUser salt d st.db]
                nextUserId := st.db.nextUserId + 1 },
            sessionUserId := some st.db.nextUserId } } := by
    simp [register, hv, hfresh, registeredUser]
  refine ⟨hreg, ?_, rfl, derive_key_ne_plaintext salt d.password⟩
  rw [hreg]
  simp only [currentUser, load_user]
  apply find?_append_last
  · exact List.find?_eq_none.mpr (fun u hu => by
      simp only [beq_iff_eq]
      exact Nat.ne_of_lt (hids u hu))
  · simp [registeredUser]

/-- Concrete instance of a fresh-email registration. -/
theorem register_fresh_email_witness :
    currentUser
        (register 7 (some { name := "nur", email := "n@x", password := "secret" }) stAnon).state =
      some (registeredUser 7 { name := "nur", email := "n@x", password := "secret" } stAnon.db) :=
  (register_fresh_email 7 _ stAnon (by decide) (by decide) (by decide)).2.1

/-- Claim C3: a valid registration whose email already belongs to an
existing user changes nothing (no row created, no session established),
flashes a message, and redirects to the login page. -/
theorem register_duplicate_email (salt : Nat) (d : RegisterData) (st : AppState) (u : User)
    (hv : d.valid = true)
    (hdup : findUserByEmail st.db d.email = some u) :
    register salt (some d) st =
      { response := .redirect "login",
        flashes := ["That email already exist in db!"], state := st } := by
  simp [register, hv, hdup]

/-- Concrete instance of a duplicate-email registration. -/
theorem register_duplicate_email_witness :
    register 7 (some { name := "zed", email := "a@x", password := "qq" }) stAnon =
      { response := .redirect "login",
        flashes := ["That email already exist in db!"], state := stAnon } :=
  register_duplicate_email 7 _ stAnon adminUser (by decide) (by decide)

/-- Claim C5: an anonymous comment submission creates no Comment row,
flashes a message, and redirects to login; an authenticated one creates
exactly one Comment carrying the requested post id and the current user
id, and redirects back to the same post. -/
theorem show_post_comment (pid : Nat) (c : CommentData) (st : AppState)
    (hv : c.valid = true) :
    (currentUser st = none →
      show_post pid (some c) st =
        { response := .redirect "login",
          flashes := ["Need to log in to comment!"], state := st }) ∧
    (∀ u, currentUser st = some u →
      show_post pid (some c) st =
        { response := .redirect ("post/" ++ toString pid), flashes := [],
          state :=
            { st with db :=
                { st.db with
                  comments := st.db.comments ++
                    [{ id := st.db.nextCommentId, text := c.comment,
                       commenter_id := u.id, blog_id := pid }]
                  nextCommentId := st.db.nextCommentId + 1 } } }) := by
  constructor
  · intro h
    simp [show_post, hv, h]
  · intro u hu
    simp [show_post, hv, hu]

/-- Concrete instances of comment submission: anonymous, then as the
non-admin user. -/
theorem show_post_comment_witness :
    show_post 1 (some { comment := "nice" }) stAnon =
      { response := .redirect "login",
        flashes := ["Need to log in to comment!"], state := stAnon } ∧
    show_post 1 (some { comment := "nice" }) stOther =
      { response := .redirect ("post/" ++ toString 1), flashes := [],
        state :=
          { stOther with db :=
              { stOther.db with
                comments := stOther.db.comments ++
                  [{ id := stOther.db.nextCommentId, text := "nice",
                     commenter_id := otherUser.id, blog_id := 1 }]
                nextCommentId := stOther.db.nextCommentId + 1 } } } :=
  ⟨(show_post_comment 1 _ stAnon (by decide)).1 (by decide),
    (show_post_comment 1 _ stOther (by decide)).2 otherUser (by decide)⟩

/-- Claim C6 as stated is false: a failed login (here: known email, wrong
password) responds with a redirect to the login route, not a re-render of
the login form. -/
theorem login_rerender_cex :
    (login (some { email := "a@x", password := "wrong" }) stAnon).response =
      Response.redirect "login" ∧
    (login (some { email := "a@x", password := "wrong" }) stAnon).response ≠
      Response.render "login.html" := by
  decide

/-- Claim C6 (amended): correct credentials authenticate the session as
the matched user and redirect to the post list; a wrong password or an
unknown email leaves the whole state unchanged, flashes a message, and
redirects to the login page (rather than re-rendering the form). -/
theorem login_contract (d : LoginData) (st : AppState) (hv : d.valid = true) :
    (∀ u, findUserByEmail st.db d.email = some u →
      check_password_hash u.password d.password = true →
      login (some d) st =
        { response := .redirect "get_all_posts", flashes := [],
          state := { st with sessionUserId := some u.id } } ∧
      ((st.db.users.map User.id).Nodup →
        currentUser (login (some d) st).state = some u)) ∧
    (∀ u, findUserByEmail st.db d.email = some u →
      check_password_hash u.password d.password = false →
      login (some d) st =
        { response := .redirect "login", flashes := ["Wrong Password!"], state := st }) ∧
    (findUserByEmail st.db d.email = none →
      login (some d) st =
        { response := .redirect "login", flashes := ["Wrong Entry!"], state := st }) := by
  refine ⟨fun u hu hc => ?_, fun u hu hc => by simp [login, hv, hu, hc],
    fun h => by simp [login, hv, h]⟩
  have hlog : login (some d) st =
      { response := .redirect "get_all_posts", flashes := [],
        state := { st with sessionUserId := some u.id } } := by
    simp [login, hv, hu, hc]
  refine ⟨hlog, fun hnodup => ?_⟩
  rw [hlog]
  simp only [currentUser, load_user]
  exact find?_key_of_mem_nodup (List.mem_of_find?_eq_some hu) hnodup

/-- Concrete instances of login: success, wrong password, unknown email. -/
theorem login_contract_witness :
    login (some { email := "a@x", password := "pw" }) stAnon =
      { response := .redirect "get_all_posts", flashes := [],
        state := { stAnon with sessionUserId := some adminUser.id } } ∧
    login (some { email := "a@x", password := "nope" }) stAnon =
      { response := .redirect "login", flashes := ["Wrong Password!"], state := stAnon } ∧
    login (some { email := "zz@x", password := "pw" }) stAnon =
      { response := .redirect "login", flashes := ["Wrong Entry!"], state := stAnon } :=
  ⟨((login_contract _ stAnon (by decide)).1 adminUser (by decide) (by decide)).1,
    (login_contract _ stAnon (by decide)).2.1 adminUser (by decide) (by decide),
    (login_contract _ stAnon (by decide)).2.2 (by decide)⟩

/-- Claim C7 as stated is false: an admin new-post submission whose title
equals an existing post title raises an uncaught IntegrityError (a 500),
with no flash message and no redirect. -/
theorem add_new_post_duplicate_title_cex :
    new_post_route "May 02, 2022"
        (some { title := "T", subtitle := "s2", img_url := "http://i2", body := "b2" })
        stAdmin =
      RouteResult.err PyErr.integrityError stAdmin ∧
    (new_post_route "May 02, 2022"
        (some { title := "T", subtitle := "s2", img_url := "http://i2", body := "b2" })
        stAdmin).isOk = false := by
  decide

/-- Claim C7 (amended): an admin new-post submission with a duplicate
title fails with an uncaught database integrity error, leaving the store
unchanged, with no flash message or redirect; a unique title creates the
post, which then appears in the post listing. -/
theorem add_new_post_contract (today : String) (d : PostData) (st : AppState) (u : User)
    (hu : currentUser st = some u) (h1 : u.id = 1) (hv : d.valid = true) :
    (st.db.posts.any (fun p => p.title == d.title) = true →
      new_post_route today (some d) st = .err .integrityError st) ∧
    (st.db.posts.any (fun p => p.title == d.title) = false →
      new_post_route today (some d) st =
        .ok { response := .redirect "get_all_posts", flashes := [],
              state :=
                { st with db :=
                    { st.db with
                      posts := st.db.posts ++ [createdPost today d st.db u]
                      nextPostId := st.db.nextPostId + 1 } } } ∧
      listPosts (new_post_route today (some d) st).resState.db =
        listPosts st.db ++ [createdPost today d st.db u]) := by
  constructor
  · intro hdup
    simp [new_post_route, admin_only, hu, h1, add_new_post, hv, hdup]
  · intro hfresh
    have hok : new_post_route today (some d) st =
        .ok { response := .redirect "get_all_posts", flashes := [],
              state :=
                { st with db :=
                    { st.db with
                      posts := st.db.posts ++ [createdPost today d st.db u]
                      nextPostId := st.db.nextPostId + 1 } } } := by
      simp [new_post_route, admin_only, hu, h1, add_new_post, hv, hfresh, createdPost]
    exact ⟨hok, by rw [hok]; rfl⟩

/-- Concrete instances of new-post: duplicate title, then a fresh title
appearing in the listing. -/
theorem add_new_post_contract_witness :
    new_post_route "May 02, 2022"
        (some { title := "T", subtitle := "x", img_url := "http://i", body := "y" })
        stAdmin =
      .err .integrityError stAdmin ∧
    listPosts (new_post_route "May 02, 2022"
        (some { title := "T2", subtitle := "x", img_url := "http://i", body := "y" })
        stAdmin).resState.db =
      listPosts stAdmin.db ++
        [createdPost "May 02, 2022"
          { title := "T2", subtitle := "x", img_url := "http://i", body := "y" }
          stAdmin.db adminUser] :=
  ⟨(add_new_post_contract "May 02, 2022" _ stAdmin adminUser
      (by decide) (by decide) (by decide)).1 (by decide),
    ((add_new_post_contract "May 02, 2022" _ stAdmin adminUser
      (by decide) (by decide) (by decide)).2 (by decide)).2⟩

/-- Claim C8: a successful admin edit of an existing post rewrites only
the title, subtitle, image URL and body of that row (the conditional
update manifestly keeps id, date and author_id), leaves users, comments,
every other post, and the session untouched, and redirects to that post
page. -/
theorem edit_post_frame (pid : Nat) (d : PostData) (st : AppState) (u : User) (post : BlogPost)
    (hu : currentUser st = some u) (h1 : u.id = 1)
    (hget : getPost st.db pid = some post)
    (hv : d.valid = true)
    (hnoclash : st.db.posts.any (fun p => !(p.id == post.id) && p.title == d.title) = false) :
    edit_post_route pid (some d) st =
      .ok { response := .redirect ("post/" ++ toString post.id), flashes := [],
            state :=
              { st with db :=
                  { st.db with posts := st.db.posts.map (fun p =>
                      if p.id = post.id then
                        { p with
                          title := d.title
                          subtitle := d.subtitle
                          img_url := d.img_url
                          body := d.body }
                      else p) } } } ∧
    (edit_post_route pid (some d) st).resState.sessionUserId = st.sessionUserId ∧
    (edit_post_route pid (some d) st).resState.db.users = st.db.users ∧
    (edit_post_route pid (some d) st).resState.db.comments = st.db.comments ∧
    (∀ p ∈ st.db.posts, p.id ≠ post.id →
      p ∈ (edit_post_route pid (some d) st).resState.db.posts) := by
  have hok : edit_post_route pid (some d) st =
      .ok { response := .redirect ("post/" ++ toString post.id), flashes := [],
            state :=
              { st with db :=
                  { st.db with posts := st.db.posts.map (fun p =>
                      if p.id = post.id then
                        { p with
                          title := d.title
                          subtitle := d.subtitle
                          img_url := d.img_url
                          body := d.body }
                      else p) } } } := by
    simp [edit_post_route, admin_only, hu, h1, edit_post, hget, hv, hnoclash]
  refine ⟨hok, by rw [hok]; rfl, by rw [hok]; rfl, by rw [hok]; rfl, fun p hp hne => ?_⟩
  rw [hok]
  simp only [RouteResult.resState]
  refine List.mem_map.mpr ⟨p, hp, ?_⟩
  rw [if_neg hne]

/-- Concrete instance of an admin edit of post 1. -/
theorem edit_post_frame_witness :
    (edit_post_route 1
        (some { title := "T9", subtitle := "s9", img_url := "http://i9", body := "b9" })
        stAdmin).resState.db.comments = stAdmin.db.comments :=
  (edit_post_frame 1 _ stAdmin adminUser post1
    (by decide) (by decide) (by decide) (by decide) (by decide)).2.2.2.1

/-- Claim C10: an admin edit-post request for a post id that does not
resolve raises AttributeError while prefilling the form; the admin_only
wrapper catches it and responds with the plain need-to-log-in page,
leaving the whole state unchanged. -/
theorem edit_post_missing_post (pid : Nat) (input : Option PostData) (st : AppState) (u : User)
    (hu : currentUser st = some u) (h1 : u.id = 1)
    (hmiss : getPost st.db pid = none) :
    edit_post_route pid input st =
      .ok { response := .html needLoginHtml, flashes := [], state := st } := by
  simp [edit_post_route, admin_only, hu, h1, edit_post, hmiss]

/-- Concrete instance: the admin editing absent post 99. -/
theorem edit_post_missing_post_witness :
    edit_post_route 99 none stAdmin =
      .ok { response := .html needLoginHtml, flashes := [], state := stAdmin } :=
  edit_post_missing_post 99 none stAdmin adminUser (by decide) (by decide) (by decide)

/-- Claim C4 as stated is false: in a concrete store satisfying
referential integrity, the admin deleting post 1, which has a comment,
yields a store violating it. -/
theorem comment_integrity_cex :
    refIntegrityB stAdmin.db = true ∧
    (delete_post_route 1 stAdmin).isOk = true ∧
    refIntegrityB (delete_post_route 1 stAdmin).resState.db = false := by
  decide

/-- Claim C4 (amended): comment referential integrity is not preserved:
an authenticated comment submission on a post id that resolves to no post
creates a dangling Comment, and an admin deletion of a post leaves every
comment of that post dangling. -/
theorem referential_integrity_not_preserved (st : AppState) :
    (∀ pid c u, currentUser st = some u → CommentData.valid c = true →
      getPost st.db pid = none →
      danglingComment (show_post pid (some c) st).state.db
        { id := st.db.nextCommentId, text := c.comment,
          commenter_id := u.id, blog_id := pid }) ∧
    (∀ pid u post c0, currentUser st = some u → u.id = 1 →
      getPost st.db pid = some post → c0 ∈ st.db.comments → c0.blog_id = post.id →
      danglingComment (delete_post_route pid st).resState.db c0) := by
  constructor
  · intro pid c u hu hv hmiss
    have hshow : show_post pid (some c) st =
        { response := .redirect ("post/" ++ toString pid), flashes := [],
          state :=
            { st with db :=
                { st.db with
                  comments := st.db.comments ++
                    [{ id := st.db.nextCommentId, text := c.comment,
                       commenter_id := u.id, blog_id := pid }]
                  nextCommentId := st.db.nextCommentId + 1 } } } := by
      simp [show_post, hv, hu]
    rw [hshow]
    refine ⟨by simp, fun p hp => ?_⟩
    have hne := List.find?_eq_none.mp hmiss p hp
    simpa using hne
  · intro pid u post c0 hu h1 hget hc0 hblog
    have hdel : delete_post_route pid st =
        .ok { response := .redirect "get_all_posts", flashes := [],
              state :=
                { st with db :=
                    { st.db with
                      posts := st.db.posts.filter (fun p => !(p.id == post.id)) } } } := by
      simp [delete_post_route, admin_only, hu, h1, delete_post, hget]
    rw [hdel]
    refine ⟨hc0, fun p hp => ?_⟩
    have hne := (List.mem_filter.mp hp).2
    rw [hblog]
    simpa using hne

/-- Concrete instances of both integrity breaks: a comment on absent post
99 by the non-admin user, and the surviving comment after the admin
deletes post 1. -/
theorem referential_integrity_not_preserved_witness :
    danglingComment (show_post 99 (some { comment := "hey" }) stOther).state.db
      { id := stOther.db.nextCommentId, text := "hey",
        commenter_id := otherUser.id, blog_id := 99 } ∧
    danglingComment (delete_post_route 1 stAdmin).resState.db comment1 :=
  ⟨(referential_integrity_not_preserved stOther).1 99 _ otherUser
      (by decide) (by decide) (by decide),
    (referential_integrity_not_preserved stAdmin).2 1 adminUser post1 comment1
      (by decide) (by decide) (by decide) (by decide) (by decide)⟩

end Blog
